import Mathlib

/-!
Verification of the movement-to-password derivation pipeline implemented by
class `MovementPasswordGenerator` in `src/app.py`.

Modelling conventions:
* Python strings are modelled as lists of characters (`Str`); `s.lower()`,
  slicing, concatenation and membership become the corresponding list
  operations.
* Every source of nondeterminism (the `random` module, `secrets.token_hex`,
  `hashlib` digests, `datetime.now()`, and the unspecified iteration order of
  Python `set`s) is supplied through an explicit `Oracle` record, so all
  definitions are total and executable.  Hash digests are uninterpreted
  string-valued oracle functions: no claim depends on digest values, only on
  slices of them.
* Character-class regular expressions (`re.search` of a character class)
  become `List.any` over the corresponding decidable character predicate.
-/

/-- Python strings, modelled as lists of characters. -/
abbrev Str := List Char

/-- Substring test: models Python's `needle in haystack` on strings. -/
def containsSub (pat s : Str) : Bool :=
  s.tails.any (fun t => pat.isPrefixOf t)

/-- The punctuation character class `[!@#$%^&*()_+\-=\[\]{}|;:,.<>?]` used by
`ensure_complexity` and `assess_password_strength` in `src/app.py`. -/
def punctClassChars : Str := "!@#$%^&*()_+-=[]\x7b\x7d|;:,.<>?".toList

/-- Membership in the punctuation character class. -/
def isPunctClass (c : Char) : Bool := punctClassChars.contains c

/-- ASCII decimal digit, modelling the regex `\d` of `src/app.py`. -/
def isDigitChar (c : Char) : Bool := 48 ≤ c.toNat && c.toNat ≤ 57

/-- ASCII uppercase letter, modelling the regex `[A-Z]`. -/
def isUpperAscii (c : Char) : Bool := 65 ≤ c.toNat && c.toNat ≤ 90

/-- ASCII lowercase letter, modelling the regex `[a-z]`. -/
def isLowerAscii (c : Char) : Bool := 97 ≤ c.toNat && c.toNat ≤ 122

/-- The "biometric" Unicode class `[Ω∿↻↺↕↑↓→ΘΨαβγδε]` of
`assess_password_strength`. -/
def bioUnicodeChars : Str := "Ω∿↻↺↕↑↓→ΘΨαβγδε".toList

/-- The kinetic Unicode class `[Ω∿↻↺↕↑↓→]` checked by
`ensure_advanced_complexity`. -/
def kineticChars : Str := "Ω∿↻↺↕↑↓→".toList

/-- The Greek Unicode class `[Θ∑Ψαβγδε]` checked by
`ensure_advanced_complexity`. -/
def greekChars : Str := "Θ∑Ψαβγδε".toList

/-- Python `str.upper()` on one character, restricted to the characters this
program manipulates (ASCII, plus the non-ASCII letters that its substitution
tables can introduce).  Non-letters are unchanged, as in Python. -/
def pyUpperChar (c : Char) : Char :=
  if isLowerAscii c then Char.ofNat (c.toNat - 32)
  else if c = 'µ' then 'Μ'
  else if c = 'ñ' then 'Ñ'
  else if c = 'þ' then 'Þ'
  else if c = 'ř' then 'Ř'
  else if c = 'м' then 'М'
  else if c = 'ω' then 'Ω'
  else if c = 'α' then 'Α'
  else c

/-- Python `str.lower()` on one character, restricted likewise. -/
def pyLowerChar (c : Char) : Char :=
  if isUpperAscii c then Char.ofNat (c.toNat + 32)
  else if c = 'Θ' then 'θ'
  else if c = 'Ψ' then 'ψ'
  else if c = 'Ω' then 'ω'
  else if c = 'Σ' then 'σ'
  else if c = 'Α' then 'α'
  else if c = 'Μ' then 'μ'
  else if c = 'Ñ' then 'ñ'
  else if c = 'Þ' then 'þ'
  else if c = 'Ř' then 'ř'
  else if c = 'М' then 'м'
  else c

/-- Python `str.lower()` on a whole string. -/
def pyLower (s : Str) : Str := s.map pyLowerChar

/-- Wall-clock reading, modelling the fields of `datetime.now()` that
`src/app.py` reads. -/
structure PyTime where
  hour : Nat
  minute : Nat
  second : Nat
  microsecond : Nat
  weekday : Nat
  day : Nat
  month : Nat

/-- All nondeterminism of `MovementPasswordGenerator`, reified.  `setOrder`
models the iteration order of a Python `set` of strings (`list(set(l))`);
`setOrderC` the same for a set of characters.  The `…Hex` fields are the
`secrets.token_hex` draws of the individual call sites, `sha256hex`/`md5hex`
are the (uninterpreted) hash digests, the `…Idx`/`digitVal` fields are the
`random.choice`/`random.randint` draws, `padsA`/`padsB` are the streams of
2-character `secrets.token_hex(1)` padding chunks of `ensure_complexity` and
`ensure_advanced_complexity`, and `randA`/`randD` are the `random.random()`
streams (in hundredths) of the two `apply_entropy_randomization` call sites. -/
structure Oracle where
  setOrder : List Str → List Str
  setOrderC : List Char → List Char
  sha256hex : Str → Str
  md5hex : Str → Str
  sessionHex : Str
  meFallbackHex : Str
  biometricFallbackHex : Str
  randomComponentHex : Str
  fallbackPasswordHex : Str
  dpaTemporalHex : Str
  dpaRandomHex : Str
  punctIdx : Nat
  digitVal : Nat
  kineticIdx : Nat
  greekIdx : Nat
  templateIdx : Nat
  padsA : Nat → Char × Char
  padsB : Nat → Char × Char
  randA : Nat → Nat
  randD : Nat → Nat
  now : PyTime

/-- A `setOrder` oracle is valid when, as `list(set(l))` does, it enumerates
exactly the distinct elements of its input, each once, in some order. -/
def ValidSetOrder (σ : List Str → List Str) : Prop :=
  ∀ l : List Str, (σ l).Nodup ∧ ∀ x, x ∈ σ l ↔ x ∈ l

/-- Fuel-indexed padding loop: models `while len(password) < L: password +=
secrets.token_hex(1)`, each chunk contributing exactly two characters.  Fuel
`L` always suffices because every iteration lengthens the string by 2. -/
def padToF (pads : Nat → Char × Char) : Nat → Nat → Nat → Str → Str
  | 0, _, _, s => s
  | fuel + 1, i, L, s =>
    if s.length < L then
      padToF pads fuel (i + 1) L (s ++ [(pads i).1, (pads i).2])
    else s

/-- The padding loop with its (sufficient) fuel. -/
def padTo (pads : Nat → Char × Char) (L : Nat) (s : Str) : Str :=
  padToF pads L 0 L s

/-- First step of `ensure_complexity`: `if not re.search(punct): password +=
random.choice(['!', '@', '#', '$', '%'])`. -/
def ecPunctStep (O : Oracle) (password : Str) : Str :=
  if password.any isPunctClass then password
  else password ++ [("!@#$%".toList).getD (O.punctIdx % 5) '!']

/-- Second step of `ensure_complexity`: `if not re.search(r'\d'): password +=
str(random.randint(0, 9))`. -/
def ecDigitStep (O : Oracle) (password : Str) : Str :=
  if password.any isDigitChar then password
  else password ++ [Char.ofNat (48 + O.digitVal % 10)]

/-- Third step of `ensure_complexity`: `if not re.search(r'[A-Z]'): password =
password[0].upper() + password[1:] if password else password`. -/
def ecUpperStep (password : Str) : Str :=
  if password.any isUpperAscii then password
  else match password with
       | [] => []
       | c :: rest => pyUpperChar c :: rest

/-- Final step of `ensure_complexity`: truncate to at most 20 characters. -/
def ecTrunc (p : Str) : Str := if 20 < p.length then p.take 20 else p

/-- `ensure_complexity` (src/app.py:719-743): append a punctuation mark if
none present, a digit if none present, uppercase the first character if no
uppercase present, pad with random hex to 12 characters, truncate to 20. -/
def ensureComplexity (O : Oracle) (password : Str) : Str :=
  ecTrunc (padTo O.padsA 12 (ecUpperStep (ecDigitStep O (ecPunctStep O password))))

/-- Extracted semantic elements (`extract_semantic_elements` result and the
merged form built in `generate_password`). -/
structure SemanticElements where
  actions : List Str
  descriptors : List Str
  qualifiers : List Str
  full_text : Str

/-- Result of `_generate_movement_entropy`.  The empty-text branch of the
source returns a dict with only `pattern_hash` and `complexity`; the optional
fields model the keys that are absent there. -/
structure MovementEntropy where
  pattern_hash : Str
  complexity : Str
  movement_types : Option Nat
  signature : Option Str

/-- Result of `_analyze_behavioral_patterns`.  The empty-text branch returns a
dict with only `complexity_score` and `confidence`. -/
structure BehavioralSignature where
  complexity_score : Str
  signature : Option Str
  confidence : Str
  features_detected : Option Nat

/-- Result of `generate_contextual_modifiers`. -/
structure ContextualModifiers where
  temporal : Str
  movement_entropy : MovementEntropy
  behavioral_signature : BehavioralSignature
  session : Str
  compound_modifier : Str

/-- Result of `analyze_extraction_effectiveness`, keeping the numeric content;
the human-readable feedback strings and the floating-point percentage are
elided (they are never consumed by the program or by any claim). -/
structure ExtractionReport where
  effectiveness_score : Nat
  max_score : Nat
  text_words : Nat
  extracted_words : Nat

/-- Strength-assessment result of `assess_password_strength`. -/
structure StrengthAssessment where
  strength : Str
  score : Int
  max_score : Nat
  factors : List Str
  recommendations : List Str
  character_types : Nat

/-- The `components` dict of a `generate_password` result: the normal path
carries the semantic elements, contextual modifiers and extraction report;
the exception path carries `{'error': str(e), 'fallback_used': True}`. -/
inductive ResultComponents where
  | normal (elems : SemanticElements) (modifiers : ContextualModifiers)
      (report : ExtractionReport) : ResultComponents
  | failure (errorMsg : Str) : ResultComponents

/-- Modifiers carried by a `ResultComponents`, when present. -/
def ResultComponents.modifiersOf : ResultComponents → Option ContextualModifiers
  | .normal _ m _ => some m
  | .failure _ => none

/-- Semantic elements carried by a `ResultComponents`, when present. -/
def ResultComponents.elemsOf : ResultComponents → Option SemanticElements
  | .normal e _ _ => some e
  | .failure _ => none

/-- A `generate_password` result.  The exception-path dict has no
`strength_analysis` and no `security_features` key, hence the `Option`s. -/
structure PasswordResult where
  password : Str
  components : ResultComponents
  strength : Str
  strength_analysis : Option StrengthAssessment
  generation_method : Str
  security_features : Option (List Str)

theorem padToF_length_ge (pads : Nat → Char × Char) (L : Nat) :
    ∀ (fuel i : Nat) (s : Str), L ≤ 2 * fuel + s.length →
      L ≤ (padToF pads fuel i L s).length := by
  intro fuel
  induction fuel with
  | zero => intro i s h; simpa [padToF] using h
  | succ n ih =>
    intro i s h
    simp only [padToF]
    split
    · exact ih (i + 1) _ (by simp [List.length_append]; omega)
    · omega

theorem padToF_length_le (pads : Nat → Char × Char) (L : Nat) :
    ∀ (fuel i : Nat) (s : Str),
      (padToF pads fuel i L s).length ≤ max s.length (L + 1) := by
  intro fuel
  induction fuel with
  | zero => intro i s; simp [padToF]
  | succ n ih =>
    intro i s
    simp only [padToF]
    split
    · refine le_trans (ih (i + 1) _) ?_
      simp only [List.length_append, List.length_cons, List.length_nil]
      omega
    · exact le_max_left _ _

theorem padTo_length_ge (pads : Nat → Char × Char) (L : Nat) (s : Str) :
    L ≤ (padTo pads L s).length :=
  padToF_length_ge pads L L 0 s (by omega)

theorem padTo_length_le (pads : Nat → Char × Char) (L : Nat) (s : Str) :
    (padTo pads L s).length ≤ max s.length (L + 1) :=
  padToF_length_le pads L L 0 s

theorem ensureComplexity_length (O : Oracle) (password : Str) :
    12 ≤ (ensureComplexity O password).length ∧
      (ensureComplexity O password).length ≤ 20 := by
  unfold ensureComplexity ecTrunc
  have h4ge := padTo_length_ge O.padsA 12
    (ecUpperStep (ecDigitStep O (ecPunctStep O password)))
  constructor
  · split
    · simp only [List.length_take]; omega
    · exact h4ge
  · split
    · simp only [List.length_take]; omega
    · omega

/-- A `\w` word character (the program's regexes run over ASCII text; the
model uses ASCII alphanumerics plus underscore). -/
def isWordChar (c : Char) : Bool := c.isAlphanum || c = '_'

/-- Helper for `wordsOf`: accumulates the current word (reversed). -/
def wordsOfAux : List Char → List Char → List Str
  | [], acc => if acc.isEmpty then [] else [acc.reverse]
  | c :: rest, acc =>
    if isWordChar c then wordsOfAux rest (c :: acc)
    else if acc.isEmpty then wordsOfAux rest []
    else acc.reverse :: wordsOfAux rest []

/-- `re.findall(r'\b\w+\b', s)`: the maximal word-character runs of `s`. -/
def wordsOf (s : Str) : List Str := wordsOfAux s []

/-- Decimal representation, modelling Python `str(n)` for naturals. -/
def pyStrNat (n : Nat) : Str := Nat.toDigits 10 n

/-- The 20 terms of `self.movement_biometrics` (gait, coordination, energy
and spatial groups, 5 terms each), in source order. -/
def movementBiometricsVocab : List Str :=
  (["stride", "cadence", "pace", "rhythm", "flow",
    "sync", "balance", "stability", "fluidity", "precision",
    "vigorous", "gentle", "explosive", "sustained", "irregular",
    "linear", "curved", "angular", "circular", "spiral"]).map String.toList

/-- The biometric-vocabulary match count of `_generate_movement_entropy`:
one per vocabulary term occurring as a substring of the lower-cased text. -/
def movementTypesCount (textLower : Str) : Nat :=
  movementBiometricsVocab.countP (fun p => containsSub p textLower)

/-- `pattern_signature` of `_generate_movement_entropy`: first character of
every word longer than 3 characters, capped at 8. -/
def mePatternSignature (textLower : Str) : Str :=
  ((wordsOf textLower).filterMap
    (fun w => if 3 < w.length then w.head? else none)).take 8

/-- `_generate_movement_entropy` (src/app.py:304-335). -/
def genMovementEntropy (O : Oracle) (movementText : Str) : MovementEntropy :=
  if movementText.isEmpty then
    { pattern_hash := O.meFallbackHex, complexity := "low".toList,
      movement_types := none, signature := none }
  else
    { pattern_hash :=
        (O.md5hex (mePatternSignature (pyLower movementText) ++
          pyStrNat (movementTypesCount (pyLower movementText)))).take 3,
      complexity :=
        if 5 < movementTypesCount (pyLower movementText) then "high".toList
        else if 2 < movementTypesCount (pyLower movementText) then
          "medium".toList
        else "low".toList,
      movement_types := some (movementTypesCount (pyLower movementText)),
      signature := some ((mePatternSignature (pyLower movementText)).take 4) }

/-- Coordination indicators of `_analyze_behavioral_patterns` (+2 each). -/
def behavioralCoordVocab : List Str :=
  (["smooth", "coordinated", "synchronized", "balanced", "stable"]).map
    String.toList

/-- Energy indicators of `_analyze_behavioral_patterns` (+3 each). -/
def behavioralEnergyVocab : List Str :=
  (["quick", "slow", "vigorous", "gentle", "explosive", "sustained"]).map
    String.toList

/-- Precision indicators of `_analyze_behavioral_patterns` (+1 each). -/
def behavioralPrecisionVocab : List Str :=
  (["precise", "deliberate", "controlled", "natural", "fluid"]).map
    String.toList

/-- The weighted behavioral complexity score. -/
def bsScore (textLower : Str) : Nat :=
  2 * behavioralCoordVocab.countP (fun p => containsSub p textLower) +
  3 * behavioralEnergyVocab.countP (fun p => containsSub p textLower) +
  behavioralPrecisionVocab.countP (fun p => containsSub p textLower)

/-- The `behavioral_features` tag list: one `C`/`E`/`P` per matched
indicator, accumulated in source order. -/
def bsTags (textLower : Str) : List Char :=
  List.replicate (behavioralCoordVocab.countP
      (fun p => containsSub p textLower)) 'C' ++
  List.replicate (behavioralEnergyVocab.countP
      (fun p => containsSub p textLower)) 'E' ++
  List.replicate (behavioralPrecisionVocab.countP
      (fun p => containsSub p textLower)) 'P'

/-- `''.join(set(behavioral_features))[:3] or 'GEN'`: enumerate the tag set
in oracle order, cap at 3, default `GEN`. -/
def bsSignature (O : Oracle) (textLower : Str) : Str :=
  if ((O.setOrderC (bsTags textLower)).take 3).isEmpty then "GEN".toList
  else (O.setOrderC (bsTags textLower)).take 3

/-- `_analyze_behavioral_patterns` (src/app.py:337-381). -/
def analyzeBehavioralPatterns (O : Oracle) (movementText : Str) :
    BehavioralSignature :=
  if movementText.isEmpty then
    { complexity_score := "0".toList, signature := none,
      confidence := "low".toList, features_detected := none }
  else
    { complexity_score := pyStrNat (bsScore (pyLower movementText)),
      signature := some (bsSignature O (pyLower movementText)),
      confidence :=
        if 8 < bsScore (pyLower movementText) then "high".toList
        else if 4 < bsScore (pyLower movementText) then "medium".toList
        else "low".toList,
      features_detected := some (bsTags (pyLower movementText)).length }

/-- `generate_contextual_modifiers` (src/app.py:264-302).  The `cyclical`
and `seasonal` temporal sub-fields are computed but never consumed by the
source, and are not modelled.  `temporal` and `compound_modifier` are hex
slices `[0:4]` and `[4:8]` of the combined SHA-256 digest. -/
def generateContextualModifiers (O : Oracle) (movementAnalysis : Str) :
    ContextualModifiers :=
  { temporal :=
      (O.sha256hex
        ((pyStrNat O.now.hour ++ pyStrNat O.now.minute ++
          pyStrNat O.now.second) ++
         (genMovementEntropy O movementAnalysis).pattern_hash ++
         (analyzeBehavioralPatterns O movementAnalysis).complexity_score ++
         (pyStrNat O.now.microsecond).take 3)).take 4,
    movement_entropy := genMovementEntropy O movementAnalysis,
    behavioral_signature := analyzeBehavioralPatterns O movementAnalysis,
    session := O.sessionHex,
    compound_modifier :=
      ((O.sha256hex
        ((pyStrNat O.now.hour ++ pyStrNat O.now.minute ++
          pyStrNat O.now.second) ++
         (genMovementEntropy O movementAnalysis).pattern_hash ++
         (analyzeBehavioralPatterns O movementAnalysis).complexity_score ++
         (pyStrNat O.now.microsecond).take 3)).drop 4).take 4 }

/-- Kinetic-marker step of `ensure_advanced_complexity`: with high behavioral
confidence, append one of `Ω ∿ ↻` unless a kinetic character is present. -/
def eacKineticStep (O : Oracle) (ctx : ContextualModifiers) (p : Str) : Str :=
  if ctx.behavioral_signature.confidence = "high".toList then
    if p.any (fun c => kineticChars.contains c) then p
    else p ++ [("Ω∿↻".toList).getD (O.kineticIdx % 3) 'Ω']
  else p

/-- Greek-marker step of `ensure_advanced_complexity`: append one of `Θ ∑ Ψ`
unless a character of the Greek class is present. -/
def eacGreekStep (O : Oracle) (p : Str) : Str :=
  if p.any (fun c => greekChars.contains c) then p
  else p ++ [("Θ∑Ψ".toList).getD (O.greekIdx % 3) 'Θ']

/-- Complexity-dependent length floor of `ensure_advanced_complexity`. -/
def eacMinLength (ctx : ContextualModifiers) : Nat :=
  if ctx.movement_entropy.complexity = "high".toList then 16
  else if ctx.movement_entropy.complexity = "medium".toList then 14
  else 12

/-- Final step of `ensure_advanced_complexity`: truncate to 24 characters. -/
def eacTrunc (p : Str) : Str := if 24 < p.length then p.take 24 else p

/-- `ensure_advanced_complexity` (src/app.py:626-656): run
`ensure_complexity`, add the kinetic and Greek markers, re-pad to the
complexity-dependent floor, truncate to 24. -/
def ensureAdvancedComplexity (O : Oracle) (password : Str)
    (ctx : ContextualModifiers) : Str :=
  eacTrunc (padTo O.padsB (eacMinLength ctx)
    (eacGreekStep O (eacKineticStep O ctx (ensureComplexity O password))))

theorem eacKineticStep_length (O : Oracle) (ctx : ContextualModifiers)
    (p : Str) : p.length ≤ (eacKineticStep O ctx p).length ∧
      (eacKineticStep O ctx p).length ≤ p.length + 1 := by
  unfold eacKineticStep
  split
  · split
    · omega
    · simp
  · omega

theorem eacGreekStep_length (O : Oracle) (p : Str) :
    p.length ≤ (eacGreekStep O p).length ∧
      (eacGreekStep O p).length ≤ p.length + 1 := by
  unfold eacGreekStep
  split
  · omega
  · simp

theorem eacMinLength_bounds (ctx : ContextualModifiers) :
    12 ≤ eacMinLength ctx ∧ eacMinLength ctx ≤ 16 := by
  unfold eacMinLength
  split
  · omega
  · split <;> omega

/-- Length invariant of the advanced complexity pass: whatever string the
assembler produced, the result has between 12 and 24 characters. -/
theorem ensureAdvancedComplexity_length (O : Oracle) (password : Str)
    (ctx : ContextualModifiers) :
    12 ≤ (ensureAdvancedComplexity O password ctx).length ∧
      (ensureAdvancedComplexity O password ctx).length ≤ 24 := by
  unfold ensureAdvancedComplexity eacTrunc
  have h1 := ensureComplexity_length O password
  have h2 := eacKineticStep_length O ctx (ensureComplexity O password)
  have h3 := eacGreekStep_length O (eacKineticStep O ctx (ensureComplexity O password))
  have h4 := eacMinLength_bounds ctx
  have h5 := padTo_length_ge O.padsB (eacMinLength ctx)
    (eacGreekStep O (eacKineticStep O ctx (ensureComplexity O password)))
  have h6 := padTo_length_le O.padsB (eacMinLength ctx)
    (eacGreekStep O (eacKineticStep O ctx (ensureComplexity O password)))
  constructor
  · split
    · simp only [List.length_take]; omega
    · omega
  · split
    · simp only [List.length_take]; omega
    · simp only [sup_le_iff] at h6; omega

/-- Body-part vocabulary (`self.contextual_terms['body_parts']`). -/
def bodyPartsVocab : List Str :=
  (["arm", "hand", "leg", "foot", "head", "torso", "body", "shoulder",
    "knee", "elbow"]).map String.toList

/-- Direction vocabulary (`self.contextual_terms['directions']`). -/
def directionsVocab : List Str :=
  (["left", "right", "up", "down", "forward", "backward", "above", "below",
    "side"]).map String.toList

/-- Intensity vocabulary (`self.contextual_terms['intensities']`). -/
def intensitiesVocab : List Str :=
  (["gentle", "rapid", "slow", "quick", "smooth", "abrupt", "rhythmic",
    "steady"]).map String.toList

/-- The words matched by the enumerated movement-verb alternations
`\b(moves?|steps?|…)\b` and `\b(swings?|rotates?|…)\b` of
`self.movement_patterns['verbs']`. -/
def movementVerbAltWords : List Str :=
  (["move", "moves", "step", "steps", "turn", "turns", "bend", "bends",
    "lift", "lifts", "wave", "waves", "raise", "raises", "lower", "lowers",
    "swing", "swings", "rotate", "rotates", "extend", "extends", "stretch",
    "stretches", "balance", "balances", "gesture", "gestures"]).map
    String.toList

/-- The words matched by the enumerated action alternations of
`self.movement_patterns['actions']`. -/
def actionAltWords : List Str :=
  (["moving", "walking", "running", "jumping", "reaching", "pointing",
    "waving", "turning", "bending", "stretching", "lifting", "lowering",
    "raising", "swinging", "rotating", "extending", "balancing", "stepping",
    "gesturing"]).map String.toList

/-- A word matched by one of the `movement_patterns` regexes, with the
`len(match) > 2` filter applied at collection time.  `\b(\w+ing)\b` needs at
least one word character before `ing`, `\b(\w+ed)\b` at least one before
`ed`. -/
def patternActionWord (w : Str) : Bool :=
  2 < w.length &&
  ((("ing".toList).isSuffixOf w && 4 ≤ w.length) ||
   (("ed".toList).isSuffixOf w && 3 ≤ w.length) ||
   movementVerbAltWords.contains w || actionAltWords.contains w)

/-- Whether token `i` lies in the bounded proximity window (at most five
token positions, the regex allows 0-4 intervening words) of a token
containing the body part `bp`.  The source scans the raw text with the regex
`\b\w+\b(?:\s+\w+){0,4}\s+bp|\b{bp}\b(?:\s+\w+){0,4}\s+\w+ing\b`; the model
works on the token list. -/
def nearBodyPart (ws : List Str) (bp : Str) (i : Nat) : Bool :=
  (List.range ws.length).any (fun j =>
    containsSub bp (ws.getD j []) && i ≤ j + 5 && j ≤ i + 5)

/-- Candidate action words contributed by the body-part proximity pass for a
single body part: only run when the body part occurs in the text, and only
words ending in `ing` or in the closed verb list are kept (the source splits
each regex match into words and keeps exactly those). -/
def windowActionWords (text : Str) (ws : List Str) (bp : Str) : List Str :=
  if containsSub bp text then
    ((List.range ws.length).filter (fun i =>
      nearBodyPart ws bp i &&
      ((("ing".toList).isSuffixOf (ws.getD i [])) ||
        ((["moves", "turns", "lifts", "waves"]).map String.toList).contains
          (ws.getD i [])))).map (fun i => ws.getD i [])
  else []

/-- Root substrings used by the final relevance filter of
`_extract_actions_dynamically`. -/
def actionRootSubstrings : List Str :=
  (["move", "turn", "lift", "wave", "step"]).map String.toList

/-- The final relevance filter of `_extract_actions_dynamically`: alphabetic,
length at least 3, and ending in `ing`/`ed` or containing a movement root. -/
def finalActionFilter (w : Str) : Bool :=
  3 ≤ w.length && w.all Char.isAlpha &&
  ((("ing".toList).isSuffixOf w) || (("ed".toList).isSuffixOf w) ||
    actionRootSubstrings.any (fun r => containsSub r w))

/-- All action candidates of `_extract_actions_dynamically` before the final
filter (pattern matches plus body-part window matches); the source
accumulates them into a Python set, so only membership is significant. -/
def actionCandidates (text : Str) : List Str :=
  ((wordsOf text).filter patternActionWord) ++
  ((bodyPartsVocab.map (fun bp => windowActionWords text (wordsOf text) bp)).flatten)

/-- `_extract_actions_dynamically` (src/app.py:169-203): candidates, final
filter, and the enumeration of the resulting set (`list(set(...))`). -/
def extractActionsDynamically (O : Oracle) (text : Str) : List Str :=
  O.setOrder ((actionCandidates text).filter finalActionFilter)

/-- Spatial-relation prepositions of the first spatial pattern
`\b(above|below|beside|near|against|towards?)\s+\w+` (group capture: the
preposition, which must be followed by a word). -/
def spatialPreps : List Str :=
  (["above", "below", "beside", "near", "against", "toward",
    "towards"]).map String.toList

/-- Orientation words of the second spatial pattern. -/
def spatialOrientationWords : List Str :=
  (["upward", "downward", "sideways", "clockwise"]).map String.toList

/-- Shape words of the third spatial pattern. -/
def spatialShapeWords : List Str :=
  (["horizontal", "vertical", "diagonal", "circular"]).map String.toList

/-- Adjacent token pairs of a token list. -/
def adjacentPairs (ws : List Str) : List (Str × Str) := ws.zip ws.tail

/-- `_extract_contextual_descriptors` (src/app.py:205-228): substring
membership of the three contextual vocabularies (dict iteration order:
body parts, directions, intensities), then the three spatial patterns.
`counter-clockwise` contains a non-word character and is checked as a
substring of the raw text. -/
def descriptorCandidates (text : Str) : List Str :=
  ((bodyPartsVocab ++ directionsVocab ++ intensitiesVocab).filter
    (fun t => containsSub t text)) ++
  ((adjacentPairs (wordsOf text)).filterMap
    (fun pr => if spatialPreps.contains pr.1 then some pr.1 else none)) ++
  ((wordsOf text).filter (fun w => spatialOrientationWords.contains w)) ++
  (if containsSub ("counter-clockwise".toList) text then
    [("counter-clockwise".toList)] else []) ++
  ((wordsOf text).filter (fun w => spatialShapeWords.contains w))

/-- `_extract_contextual_descriptors` with the final `list(set(...))`. -/
def extractContextualDescriptors (O : Oracle) (text : Str) : List Str :=
  O.setOrder (descriptorCandidates text)

/-- Quality adjectives of `_extract_movement_qualifiers`, group 1. -/
def qualityVocab1 : List Str :=
  (["smooth", "rough", "jerky", "fluid", "stiff", "relaxed", "tense"]).map
    String.toList

/-- Pace adjectives, group 2. -/
def qualityVocab2 : List Str :=
  (["quick", "slow", "rapid", "gradual", "sudden", "gentle"]).map
    String.toList

/-- Rhythm adjectives, group 3. -/
def qualityVocab3 : List Str :=
  (["rhythmic", "erratic", "steady", "consistent", "irregular"]).map
    String.toList

/-- Naturalness adjectives, group 4. -/
def qualityVocab4 : List Str :=
  (["natural", "forced", "effortless", "deliberate"]).map String.toList

/-- `_extract_movement_qualifiers` (src/app.py:230-262): the four quality
pattern groups plus the comparative patterns `\b(\w+er)\s+(than|movement)\b`
and `\b(more|less)\s+(\w+ly)\b` (tuple matches: both captured words survive
the `len(word) > 2` filter, since `\w+er` and `\w+ly` have at least three
characters and `than`, `movement`, `more`, `less` have at least three). -/
def qualifierCandidates (text : Str) : List Str :=
  ((wordsOf text).filter (fun w => qualityVocab1.contains w)) ++
  ((wordsOf text).filter (fun w => qualityVocab2.contains w)) ++
  ((wordsOf text).filter (fun w => qualityVocab3.contains w)) ++
  ((wordsOf text).filter (fun w => qualityVocab4.contains w)) ++
  ((adjacentPairs (wordsOf text)).filterMap (fun pr =>
    if ("er".toList).isSuffixOf pr.1 && 3 ≤ pr.1.length &&
        ((["than", "movement"]).map String.toList).contains pr.2 then
      some [pr.1, pr.2]
    else none)).flatten ++
  ((adjacentPairs (wordsOf text)).filterMap (fun pr =>
    if ((["more", "less"]).map String.toList).contains pr.1 &&
        ("ly".toList).isSuffixOf pr.2 && 3 ≤ pr.2.length then
      some [pr.1, pr.2]
    else none)).flatten

/-- `_extract_movement_qualifiers` with the final `list(set(...))`. -/
def extractMovementQualifiers (O : Oracle) (text : Str) : List Str :=
  O.setOrder (qualifierCandidates text)

/-- `extract_semantic_elements` (src/app.py:145-167): lower-case, run the
three extraction passes, truncate to the 3/3/2 caps. -/
def extractSemanticElements (O : Oracle) (movementDescription : Str) :
    SemanticElements :=
  { actions := (extractActionsDynamically O (pyLower movementDescription)).take 3,
    descriptors :=
      (extractContextualDescriptors O (pyLower movementDescription)).take 3,
    qualifiers :=
      (extractMovementQualifiers O (pyLower movementDescription)).take 2,
    full_text := pyLower movementDescription }

/-- The merge step of `generate_password` (src/app.py:754-760): union via
`list(set(summary + analysis))` (summary entries first in the concatenation),
truncate to the caps, and join the two full texts with one space. -/
def mergeElements (σ : List Str → List Str)
    (summaryE analysisE : SemanticElements) : SemanticElements :=
  { actions := (σ (summaryE.actions ++ analysisE.actions)).take 3,
    descriptors := (σ (summaryE.descriptors ++ analysisE.descriptors)).take 3,
    qualifiers := (σ (summaryE.qualifiers ++ analysisE.qualifiers)).take 2,
    full_text := summaryE.full_text ++ [' '] ++ analysisE.full_text }

/-- Helper for `splitWs`: accumulates the current chunk (reversed). -/
def splitWsAux : List Char → List Char → List Str
  | [], acc => if acc.isEmpty then [] else [acc.reverse]
  | c :: rest, acc =>
    if c.isWhitespace then
      if acc.isEmpty then splitWsAux rest []
      else acc.reverse :: splitWsAux rest []
    else splitWsAux rest (c :: acc)

/-- Python `s.split()` with no separator: whitespace runs, empties dropped. -/
def splitWs (s : Str) : List Str := splitWsAux s []

/-- `analyze_extraction_effectiveness` (src/app.py:895-935), numeric content:
+3 for a nonempty action list, +2 for descriptors, +1 for qualifiers; word
counts for the utilization metric.  The guard `if text_words > 0` keeps the
source from dividing by zero (and from touching the unbound
`utilization_rate` name) on whitespace-only text. -/
def analyzeExtractionEffectiveness (movementText : Str)
    (e : SemanticElements) : ExtractionReport :=
  { effectiveness_score :=
      (if e.actions.isEmpty then 0 else 3) +
      (if e.descriptors.isEmpty then 0 else 2) +
      (if e.qualifiers.isEmpty then 0 else 1),
    max_score := 6,
    text_words := (splitWs movementText).length,
    extracted_words :=
      e.actions.length + e.descriptors.length + e.qualifiers.length }

/-- The basic leetspeak substitution table
`self.char_substitutions['basic']`. -/
def basicSub (c : Char) : Option Char :=
  if c = 'a' then some '@'
  else if c = 'e' then some '3'
  else if c = 'i' then some '!'
  else if c = 'o' then some '0'
  else if c = 's' then some '$'
  else if c = 't' then some '7'
  else if c = 'l' then some '1'
  else if c = 'g' then some '9'
  else if c = 'b' then some '6'
  else none

/-- The advanced Unicode-lookalike table
`self.char_substitutions['advanced']`. -/
def advancedSub (c : Char) : Option Char :=
  if c = 'u' then some 'µ'
  else if c = 'n' then some 'ñ'
  else if c = 'c' then some '¢'
  else if c = 'y' then some '¥'
  else if c = 'p' then some 'þ'
  else if c = 'r' then some 'ř'
  else if c = 'm' then some 'м'
  else none

/-- The whole-word contextual table
`self.char_substitutions['contextual']`. -/
def contextualSubs (w : Str) : Option Str :=
  if w = "walk".toList then some ("w4lk".toList)
  else if w = "move".toList then some ("m0v3".toList)
  else if w = "turn".toList then some ("7urn".toList)
  else if w = "step".toList then some ("57ep".toList)
  else if w = "wave".toList then some ("w4v3".toList)
  else none

/-- The movement-themed table of phase 4 of
`apply_entropy_randomization`. -/
def movementTransform (c : Char) : Option Char :=
  if c = 'w' then some '∿'
  else if c = 's' then some '~'
  else if c = 'r' then some '↻'
  else if c = 'l' then some '↺'
  else if c = 'm' then some '↕'
  else if c = 'u' then some '↑'
  else if c = 'd' then some '↓'
  else if c = 'f' then some '→'
  else none

/-- Python `str.isalpha()` on one character, restricted to ASCII letters plus
the non-ASCII letters this program can introduce. -/
def pyIsAlpha (c : Char) : Bool :=
  c.isAlpha || ("µñþřмΘΨΩαβγδεωσθψМÑÞŘΑΜ".toList).contains c

/-- Phase 4 of the per-character randomization: with probability 0.15 on a
letter, substitute from the movement-themed table when the letter has an
entry (the random draw is consumed even when it has none). -/
def aerPhase4 (rand : Nat → Nat) (c : Char) (k : Nat) : Char × Bool × Nat :=
  if pyIsAlpha c then
    if rand k < 15 then
      match movementTransform c with
      | some c4 => (c4, true, k + 1)
      | none => (c, false, k + 1)
    else (c, false, k + 1)
  else (c, false, k)

/-- Phase 3: with probability 0.25 on a letter, uppercase at even index or
replace by `str(ord(c) % 10)` at odd index. -/
def aerPhase3 (rand : Nat → Nat) (c : Char) (i k : Nat) : Char × Bool × Nat :=
  if pyIsAlpha c then
    if rand k < 25 then
      (if i % 2 = 0 then pyUpperChar c else Char.ofNat (48 + c.toNat % 10),
        true, k + 1)
    else aerPhase4 rand c (k + 1)
  else aerPhase4 rand c k

/-- Phase 2: with probability 0.2, the advanced table. -/
def aerPhase2 (rand : Nat → Nat) (c : Char) (i k : Nat) : Char × Bool × Nat :=
  match advancedSub c with
  | some c2 => if rand k < 20 then (c2, true, k + 1) else aerPhase3 rand c i (k + 1)
  | none => aerPhase3 rand c i k

/-- Phase 1: with probability 0.4, the basic table.  Returns the resulting
character, whether a substitution slot was consumed, and the next position of
the `random.random()` stream. -/
def aerPhase1 (rand : Nat → Nat) (c : Char) (i k : Nat) : Char × Bool × Nat :=
  match basicSub c with
  | some c1 => if rand k < 40 then (c1, true, k + 1) else aerPhase2 rand c i (k + 1)
  | none => aerPhase2 rand c i k

/-- The character loop of `apply_entropy_randomization`: left to right,
stopping (leaving the tail unchanged) once `maxChanges` substitutions have
been applied. -/
def aerLoop (rand : Nat → Nat) :
    List Char → Nat → Nat → Nat → Nat → List Char
  | [], _, _, _, _ => []
  | c :: rest, i, changes, maxChanges, k =>
    if maxChanges ≤ changes then c :: rest
    else
      match aerPhase1 rand c i k with
      | (c2, changed, k2) =>
        c2 :: aerLoop rand rest (i + 1)
          (if changed then changes + 1 else changes) maxChanges k2

/-- `apply_entropy_randomization` (src/app.py:383-440).  The entropy level is
passed as an exact fraction `eNum/eDen`; the substitution cap is
`max(1, int(len(text) * entropy_level))` (for the lengths and levels this
program uses, floor of the exact fraction coincides with Python's float
computation).  In movement context a whole-word contextual substitution
short-circuits the loop. -/
def applyEntropyRandomization (rand : Nat → Nat) (text : Str)
    (eNum eDen : Nat) (context : Str) : Str :=
  if text.isEmpty then text
  else if context = "movement".toList && (contextualSubs (pyLower text)).isSome
  then (contextualSubs (pyLower text)).getD []
  else aerLoop rand (pyLower text) 0 0 (max 1 (text.length * eNum / eDen)) 0

/-- `generate_biometric_hash` (src/app.py:442-467): concatenate action
initials (upper-cased), the behavioral complexity score and the behavioral
signature; SHA-256 and keep 6 hex characters, or fall back to 3 random hex
bytes when the string is empty. -/
def biometricString (elems : SemanticElements) (bd : BehavioralSignature) :
    Str :=
  (if elems.actions.isEmpty then []
   else (elems.actions.take 3).filterMap (fun a => a.head?.map pyUpperChar)) ++
  (if bd.complexity_score.isEmpty then [] else bd.complexity_score) ++
  (match bd.signature with
   | some sg => if sg.isEmpty then [] else sg
   | none => [])

/-- SHA-256 of the biometric string, keeping 6 hex characters, or the random
fallback when the string is empty. -/
def generateBiometricHash (O : Oracle) (elems : SemanticElements)
    (bd : BehavioralSignature) : Str :=
  if (biometricString elems bd).isEmpty then O.biometricFallbackHex
  else (O.sha256hex (biometricString elems bd)).take 6

/-- Python `max(actions, key=len)` starting from a first candidate: strictly
longer elements replace the current best, so the first longest wins. -/
def maxByLen : Str → List Str → Str
  | best, [] => best
  | best, a :: rest => maxByLen (if best.length < a.length then a else best) rest

/-- Priority list of `_select_primary_action`. -/
def priorityActions : List Str :=
  (["walking", "running", "jumping", "waving", "pointing", "turning"]).map
    String.toList

/-- `_select_primary_action` (src/app.py:658-672): first action containing a
priority action (scanned in priority order), else the longest action, else
the literal `move`. -/
def selectPrimaryAction (actions : List Str) : Str :=
  match priorityActions.findSome?
      (fun p => actions.find? (fun a => containsSub p a)) with
  | some a => a
  | none =>
    match actions with
    | [] => "move".toList
    | a :: rest => maxByLen a rest

/-- `_extract_multi_source_descriptor` (src/app.py:526-545): first qualifier
(5 chars, level 0.3), else first descriptor (4 chars, level 0.35), else
second action (4 chars, level 0.4), else the literal fallback `dΨn`. -/
def extractMultiSourceDescriptor (O : Oracle) (elems : SemanticElements) :
    Str :=
  if !elems.qualifiers.isEmpty then
    if (applyEntropyRandomization O.randD ((elems.qualifiers.headD []).take 5)
        30 100 ("general".toList)).isEmpty then "dΨn".toList
    else applyEntropyRandomization O.randD ((elems.qualifiers.headD []).take 5)
      30 100 ("general".toList)
  else if !elems.descriptors.isEmpty then
    if (applyEntropyRandomization O.randD ((elems.descriptors.headD []).take 4)
        35 100 ("general".toList)).isEmpty then "dΨn".toList
    else applyEntropyRandomization O.randD ((elems.descriptors.headD []).take 4)
      35 100 ("general".toList)
  else if 1 < elems.actions.length then
    if (applyEntropyRandomization O.randD ((elems.actions.getD 1 []).take 4)
        40 100 ("general".toList)).isEmpty then "dΨn".toList
    else applyEntropyRandomization O.randD ((elems.actions.getD 1 []).take 4)
      40 100 ("general".toList)
  else "dΨn".toList

/-- The raw signature string of `_create_advanced_movement_signature`:
action initials (up to 2, skipping empty actions), up to 2 characters of the
behavioral signature (when present and truthy), up to 2 characters of the
movement-entropy signature (when present and truthy), and the complexity
marker (`Ω` for high, `α` for low, none for medium). -/
def amsBase (elems : SemanticElements) (ctx : ContextualModifiers) : Str :=
  ((elems.actions.take 2).filterMap (fun a => a.head?.map pyUpperChar)) ++
  (match ctx.behavioral_signature.signature with
   | some sg => if sg.isEmpty then [] else sg.take 2
   | none => []) ++
  (match ctx.movement_entropy.signature with
   | some sg => if sg.isEmpty then [] else sg.take 2
   | none => []) ++
  (if ctx.movement_entropy.complexity = "high".toList then ['Ω']
   else if ctx.movement_entropy.complexity = "low".toList then ['α']
   else [])

/-- `_create_advanced_movement_signature` (src/app.py:547-579): MD5 of the
raw signature (default `MΣ` when empty), keeping 4 hex characters. -/
def createAdvancedMovementSignature (O : Oracle) (elems : SemanticElements)
    (ctx : ContextualModifiers) : Str :=
  (O.md5hex (if (amsBase elems ctx).isEmpty then "MΣ".toList
             else amsBase elems ctx)).take 4

/-- The four high-security templates of
`_select_security_optimal_template`. -/
def highSecurityTemplates : List Str :=
  (["\x7baction\x7d_\x7bbiometric\x7d_\x7btemporal\x7d_\x7brandom\x7d",
    "\x7bbiometric\x7d\x7baction\x7d_\x7bentropy\x7d_\x7bbehavioral\x7d",
    "\x7bsignature\x7d\x7baction\x7d_\x7btemporal\x7d\x7bbiometric\x7d",
    "\x7baction\x7d_\x7bbehavioral\x7d_\x7bentropy\x7d_\x7bsignature\x7d"]).map
    String.toList

/-- The three medium-security templates. -/
def mediumSecurityTemplates : List Str :=
  (["\x7baction\x7d_\x7bmodifier\x7d_\x7btemporal\x7d_\x7brandom\x7d",
    "\x7baction\x7d\x7bsignature\x7d_\x7bentropy\x7d_\x7brandom\x7d",
    "\x7bmodifier\x7d_\x7baction\x7d_\x7bbiometric\x7d_\x7btemporal\x7d"]).map
    String.toList

/-- The high-security eligibility test of
`_select_security_optimal_template`. -/
def useHighSecurity (elems : SemanticElements) (ctx : ContextualModifiers) :
    Bool :=
  (ctx.behavioral_signature.confidence = "high".toList ||
   ctx.behavioral_signature.confidence = "medium".toList) &&
  (ctx.movement_entropy.complexity = "high".toList ||
   ctx.movement_entropy.complexity = "medium".toList) &&
  2 ≤ elems.actions.length

/-- `_select_security_optimal_template` (src/app.py:581-608): a uniformly
random element of the eligible template set. -/
def selectSecurityOptimalTemplate (O : Oracle) (elems : SemanticElements)
    (ctx : ContextualModifiers) : Str :=
  if useHighSecurity elems ctx then
    highSecurityTemplates.getD (O.templateIdx % 4) []
  else mediumSecurityTemplates.getD (O.templateIdx % 3) []

/-- A parsed token of a Python format template: a literal character or a
named replacement field. -/
inductive Tok where
  | lit (c : Char) : Tok
  | slot (name : Str) : Tok
deriving DecidableEq

/-- Template parser: outside a field, a `\x7b` opens one; inside (the
accumulator holds the reversed field name), `\x7d` closes it. -/
def parseTAux : Option Str → Str → List Tok
  | none, [] => []
  | some acc, [] => [Tok.slot acc.reverse]
  | none, c :: rest =>
    if c = '\x7b' then parseTAux (some []) rest
    else Tok.lit c :: parseTAux none rest
  | some acc, c :: rest =>
    if c = '\x7d' then Tok.slot acc.reverse :: parseTAux none rest
    else parseTAux (some (c :: acc)) rest

/-- Parse a template string into tokens. -/
def parseTemplate (t : Str) : List Tok := parseTAux none t

/-- Render parsed tokens against a component lookup; an unbound name yields
`none`, modelling the `KeyError` of `str.format`. -/
def renderToks (lookup : Str → Option Str) : List Tok → Option Str
  | [] => some []
  | Tok.lit c :: ts => (renderToks lookup ts).map (fun r => c :: r)
  | Tok.slot n :: ts =>
    match lookup n with
    | none => none
    | some v => (renderToks lookup ts).map (fun r => v ++ r)

/-- `template.format(**components)`: parse then render. -/
def pyFormat (t : Str) (lookup : Str → Option Str) : Option Str :=
  renderToks lookup (parseTemplate t)

/-- The `password_components` dict built by `assemble_password`
(src/app.py:507-516), as a lookup from slot name to value: exactly the eight
names are bound. -/
def mkComponents (action modifier biometric temporal entropy behavioral
    randomC signature : Str) (k : Str) : Option Str :=
  if k = "action".toList then some action
  else if k = "modifier".toList then some modifier
  else if k = "biometric".toList then some biometric
  else if k = "temporal".toList then some temporal
  else if k = "entropy".toList then some entropy
  else if k = "behavioral".toList then some behavioral
  else if k = "random".toList then some randomC
  else if k = "signature".toList then some signature
  else none

/-- `_dynamic_password_assembly` (src/app.py:610-624): render the template;
on a `KeyError`, render the fixed canonical four-slot template instead (its
`components.get` defaults fall back to literals or fresh random hex). -/
def dynamicPasswordAssembly (O : Oracle) (template : Str)
    (lookup : Str → Option Str) : Str :=
  match pyFormat template lookup with
  | some s => s
  | none =>
    ((lookup ("action".toList)).getD ("mΘv".toList)) ++ ['_'] ++
    ((lookup ("biometric".toList)).getD ("B10".toList)) ++ ['_'] ++
    ((lookup ("temporal".toList)).getD O.dpaTemporalHex) ++ ['_'] ++
    ((lookup ("random".toList)).getD O.dpaRandomHex)

/-- The candidate password assembled by `assemble_password`
(src/app.py:469-519) before the complexity pass: biometric hash, randomized
primary action (6 chars, level 0.4, movement context), multi-source
descriptor, advanced movement signature, and the contextual layers, rendered
through the selected template. -/
def assembleRaw (O : Oracle) (elems : SemanticElements)
    (ctx : ContextualModifiers) : Str :=
  dynamicPasswordAssembly O (selectSecurityOptimalTemplate O elems ctx)
    (mkComponents
      (if (if elems.actions.isEmpty then []
           else applyEntropyRandomization O.randA
             ((selectPrimaryAction elems.actions).take 6) 40 100
             ("movement".toList)).isEmpty
       then "mΘv".toList
       else (if elems.actions.isEmpty then []
             else applyEntropyRandomization O.randA
               ((selectPrimaryAction elems.actions).take 6) 40 100
               ("movement".toList)))
      (extractMultiSourceDescriptor O elems)
      ((generateBiometricHash O elems ctx.behavioral_signature).take 4)
      ctx.temporal
      ctx.compound_modifier
      ((ctx.behavioral_signature.signature).getD ("GEN".toList))
      O.randomComponentHex
      (createAdvancedMovementSignature O elems ctx))

/-- `assemble_password` (src/app.py:469-524): the assembled candidate,
followed by `ensure_advanced_complexity`. -/
def assemblePassword (O : Oracle) (elems : SemanticElements)
    (ctx : ContextualModifiers) : Str :=
  ensureAdvancedComplexity O (assembleRaw O elems ctx) ctx

/-- `len(set(password))`: the number of distinct characters. -/
def uniqueCharCount (p : Str) : Nat := p.dedup.length

/-- The repeated-character penalty pattern `(.)\1{2,}`: some character occurs
at three consecutive positions. -/
def hasTripleRun : Str → Bool
  | a :: b :: c :: rest => (a = b && b = c) || hasTripleRun (b :: c :: rest)
  | _ => false

/-- The sequential-pattern alternatives of `assess_password_strength`. -/
def sequentialTriples : List Str :=
  (["012", "123", "234", "345", "456", "567", "678", "789", "890", "abc",
    "def", "ghi"]).map String.toList

/-- The sequential-pattern penalty test, run on the lower-cased password. -/
def hasSequentialPattern (p : Str) : Bool :=
  sequentialTriples.any (fun t => containsSub t p)

/-- The score of `assess_password_strength` (src/app.py:803-885): +3/+2 for
length 16/12, +1 per lowercase/uppercase/digit class, +2 for punctuation,
+3 for a biometric Unicode character, +2/+1 for high/medium behavioral
confidence, +2/+1 for high/medium movement complexity, +2/+1 for a
unique-character ratio of 0.8/0.6 (the float thresholds coincide with the
exact fractions on all reachable lengths), −1 for a triple run, −2 for a
sequential pattern. -/
def assessScore (password : Str) (contextualData : Option ContextualModifiers) :
    Int :=
  (if 16 ≤ password.length then (3 : Int)
   else if 12 ≤ password.length then 2 else 0) +
  (if password.any isLowerAscii then 1 else 0) +
  (if password.any isUpperAscii then 1 else 0) +
  (if password.any isDigitChar then 1 else 0) +
  (if password.any isPunctClass then 2 else 0) +
  (if password.any (fun c => bioUnicodeChars.contains c) then 3 else 0) +
  (match contextualData with
   | none => 0
   | some m =>
     (if m.behavioral_signature.confidence = "high".toList then (2 : Int)
      else if m.behavioral_signature.confidence = "medium".toList then 1
      else 0) +
     (if m.movement_entropy.complexity = "high".toList then (2 : Int)
      else if m.movement_entropy.complexity = "medium".toList then 1
      else 0)) +
  (if 8 * password.length ≤ 10 * uniqueCharCount password then 2
   else if 6 * password.length ≤ 10 * uniqueCharCount password then 1
   else 0) -
  (if hasTripleRun password then 1 else 0) -
  (if hasSequentialPattern (pyLower password) then 2 else 0)

/-- The tier mapping of `assess_password_strength`. -/
def assessStrengthTier (score : Int) : Str :=
  if 12 ≤ score then "Exceptional".toList
  else if 9 ≤ score then "Very Strong".toList
  else if 6 ≤ score then "Strong".toList
  else if 4 ≤ score then "Medium".toList
  else "Weak".toList

/-- `character_types` of `assess_password_strength`. -/
def assessCharTypes (password : Str) : Nat :=
  (if password.any isLowerAscii then 1 else 0) +
  (if password.any isUpperAscii then 1 else 0) +
  (if password.any isDigitChar then 1 else 0) +
  (if password.any isPunctClass then 1 else 0)

/-- The `factors` strings of the analysis, in accumulation order. -/
def assessFactors (password : Str)
    (contextualData : Option ContextualModifiers) : List Str :=
  (if 16 ≤ password.length then [("Excellent length (16+ chars)".toList)]
   else if 12 ≤ password.length then [("Good length (12+ chars)".toList)]
   else []) ++
  (if password.any (fun c => bioUnicodeChars.contains c) then
    [("Biometric Unicode characters detected".toList)] else []) ++
  (match contextualData with
   | none => []
   | some m =>
     (if m.behavioral_signature.confidence = "high".toList then
       [("High behavioral confidence".toList)]
      else if m.behavioral_signature.confidence = "medium".toList then
       [("Medium behavioral confidence".toList)]
      else []) ++
     (if m.movement_entropy.complexity = "high".toList then
       [("High movement complexity".toList)]
      else [])) ++
  (if 8 * password.length ≤ 10 * uniqueCharCount password then
    [("High character uniqueness".toList)] else [])

/-- The `recommendations` strings of the analysis, in accumulation order. -/
def assessRecommendations (password : Str) : List Str :=
  (if password.length < 12 then
    [("Increase length to 12+ characters".toList)] else []) ++
  (if hasTripleRun password then
    [("Reduce character repetition".toList)] else []) ++
  (if hasSequentialPattern (pyLower password) then
    [("Avoid sequential patterns".toList)] else [])

/-- `assess_password_strength` (src/app.py:803-893), a pure function of the
password and the contextual modifiers: no random draw, clock read or hash
appears in its body. -/
def assessPasswordStrength (password : Str)
    (contextualData : Option ContextualModifiers) : StrengthAssessment :=
  { strength := assessStrengthTier (assessScore password contextualData),
    score := assessScore password contextualData,
    max_score := 15,
    factors := assessFactors password contextualData,
    recommendations := assessRecommendations password,
    character_types := assessCharTypes password }

/-- `_get_security_features_summary` (src/app.py:937-965). -/
def getSecurityFeaturesSummary (ctx : ContextualModifiers) : List Str :=
  (if ctx.behavioral_signature.confidence = "high".toList ||
      ctx.behavioral_signature.confidence = "medium".toList then
    [("Behavioral biometrics (".toList) ++
      ctx.behavioral_signature.confidence ++ (" confidence)".toList)]
   else []) ++
  [("Movement entropy analysis (".toList) ++
    ctx.movement_entropy.complexity ++ (" complexity)".toList)] ++
  (if ctx.compound_modifier.isEmpty then []
   else [("Multi-layered cryptographic hashing".toList)]) ++
  [("High-precision temporal entropy".toList),
   ("Multi-tier character substitution".toList),
   ("Movement pattern fingerprinting".toList)]

/-- The normal (try-branch) path of `generate_password` (src/app.py:745-788):
extract from both inputs, merge, report extraction effectiveness, generate
the contextual modifiers from the merged text, assemble, assess. -/
def generatePasswordNormal (O : Oracle)
    (movementAnalysis movementSummary : Str) : PasswordResult :=
  { password :=
      assemblePassword O
        (mergeElements O.setOrder (extractSemanticElements O movementSummary)
          (extractSemanticElements O movementAnalysis))
        (generateContextualModifiers O
          (mergeElements O.setOrder (extractSemanticElements O movementSummary)
            (extractSemanticElements O movementAnalysis)).full_text),
    components :=
      .normal
        (mergeElements O.setOrder (extractSemanticElements O movementSummary)
          (extractSemanticElements O movementAnalysis))
        (generateContextualModifiers O
          (mergeElements O.setOrder (extractSemanticElements O movementSummary)
            (extractSemanticElements O movementAnalysis)).full_text)
        (analyzeExtractionEffectiveness
          (mergeElements O.setOrder (extractSemanticElements O movementSummary)
            (extractSemanticElements O movementAnalysis)).full_text
          (mergeElements O.setOrder (extractSemanticElements O movementSummary)
            (extractSemanticElements O movementAnalysis))),
    strength :=
      (assessPasswordStrength
        (assemblePassword O
          (mergeElements O.setOrder (extractSemanticElements O movementSummary)
            (extractSemanticElements O movementAnalysis))
          (generateContextualModifiers O
            (mergeElements O.setOrder
              (extractSemanticElements O movementSummary)
              (extractSemanticElements O movementAnalysis)).full_text))
        (some (generateContextualModifiers O
          (mergeElements O.setOrder (extractSemanticElements O movementSummary)
            (extractSemanticElements O movementAnalysis)).full_text))).strength,
    strength_analysis :=
      some (assessPasswordStrength
        (assemblePassword O
          (mergeElements O.setOrder (extractSemanticElements O movementSummary)
            (extractSemanticElements O movementAnalysis))
          (generateContextualModifiers O
            (mergeElements O.setOrder
              (extractSemanticElements O movementSummary)
              (extractSemanticElements O movementAnalysis)).full_text))
        (some (generateContextualModifiers O
          (mergeElements O.setOrder (extractSemanticElements O movementSummary)
            (extractSemanticElements O movementAnalysis)).full_text))),
    generation_method := "advanced_biometric_extraction".toList,
    security_features :=
      some (getSecurityFeaturesSummary
        (generateContextualModifiers O
          (mergeElements O.setOrder (extractSemanticElements O movementSummary)
            (extractSemanticElements O movementAnalysis)).full_text)) }

/-- The except-branch of `generate_password` (src/app.py:790-801): password
`"Move" + token_hex(4) + str(hour) + "!"`, error message in `components`,
strength `Medium`, method `fallback`; no `strength_analysis` or
`security_features` key. -/
def fallbackResult (O : Oracle) (errMsg : Str) : PasswordResult :=
  { password :=
      "Move".toList ++ O.fallbackPasswordHex ++ pyStrNat O.now.hour ++ ['!'],
    components := .failure errMsg,
    strength := "Medium".toList,
    strength_analysis := none,
    generation_method := "fallback".toList,
    security_features := none }

/-- `generate_password` (src/app.py:745-801).  The embedded pipeline is
total, so the `except Exception` handler can only be reached by an exogenous
failure (e.g. an interpreter-level error inside a library call); `inject`
models that: `some e` means an unhandled exception with message `e` was
raised inside the try-block, `none` means the pipeline ran to completion. -/
def generatePassword (O : Oracle) (movementAnalysis movementSummary : Str)
    (inject : Option Str) : PasswordResult :=
  match inject with
  | some e => fallbackResult O e
  | none => generatePasswordNormal O movementAnalysis movementSummary

/-- A concrete oracle used by witnesses and counterexamples: set enumeration
in first-occurrence order (one realizable order of a Python set), fixed hex
strings of the right shapes for the `secrets.token_hex` draws, fixed digests,
index draws 0, `random.random()` draws that never fire a substitution, and a
fixed clock reading. -/
def Odef : Oracle :=
  { setOrder := fun l => l.dedup,
    setOrderC := fun l => l.dedup,
    sha256hex := fun _ =>
      ("00112233445566778899aabbccddeeff00112233445566778899aabbccddeeff".toList),
    md5hex := fun _ => ("00112233445566778899aabbccddeeff".toList),
    sessionHex := "abcdef".toList,
    meFallbackHex := "abcd".toList,
    biometricFallbackHex := "abcdef".toList,
    randomComponentHex := "abcd".toList,
    fallbackPasswordHex := "89abcdef".toList,
    dpaTemporalHex := "abcd".toList,
    dpaRandomHex := "abcd".toList,
    punctIdx := 0,
    digitVal := 0,
    kineticIdx := 0,
    greekIdx := 0,
    templateIdx := 0,
    padsA := fun _ => ('a', 'b'),
    padsB := fun _ => ('c', 'd'),
    randA := fun _ => 99,
    randD := fun _ => 99,
    now := { hour := 7, minute := 30, second := 15, microsecond := 123456,
             weekday := 2, day := 10, month := 10 } }

/-- The five strength tiers of the specification's `PasswordResult`. -/
def strengthTiers : List Str :=
  (["Weak", "Medium", "Strong", "Very Strong", "Exceptional"]).map
    String.toList

theorem assessStrengthTier_mem (score : Int) :
    assessStrengthTier score ∈ strengthTiers := by
  unfold assessStrengthTier
  split_ifs <;> simp [strengthTiers]

theorem pyStrNat_hour_len :
    ∀ n, n < 24 → 1 ≤ (pyStrNat n).length ∧ (pyStrNat n).length ≤ 2 := by
  decide

theorem pyStrNat_hour_digits :
    ∀ n, n < 24 → ∀ c ∈ pyStrNat n, isDigitChar c = true := by
  decide

theorem validSetOrder_dedup : ValidSetOrder (fun l => l.dedup) := by
  intro l
  exact ⟨List.nodup_dedup l, fun x => List.mem_dedup⟩

theorem validSetOrder_nil {σ : List Str → List Str} (hσ : ValidSetOrder σ) :
    σ [] = [] := by
  rcases hσ [] with ⟨-, hmem⟩
  cases h : σ [] with
  | nil => rfl
  | cons a t =>
    exfalso
    have : a ∈ σ [] := by simp [h]
    simpa using (hmem a).mp this

/-- C6: for every non-empty text, the movement-entropy complexity
classification is exactly: `high` when the biometric-vocabulary match count
exceeds 5, `medium` when it is 3 to 5 (in particular exactly 5), and `low`
when it is at most 2. -/
theorem C6_movement_complexity_boundaries (O : Oracle) (fullText : Str)
    (h : fullText ≠ []) :
    (5 < movementTypesCount (pyLower fullText) →
      (genMovementEntropy O fullText).complexity = "high".toList) ∧
    (3 ≤ movementTypesCount (pyLower fullText) →
      movementTypesCount (pyLower fullText) ≤ 5 →
      (genMovementEntropy O fullText).complexity = "medium".toList) ∧
    (movementTypesCount (pyLower fullText) ≤ 2 →
      (genMovementEntropy O fullText).complexity = "low".toList) := by
  have hne : fullText.isEmpty = false := by
    cases fullText with
    | nil => exact absurd rfl h
    | cons a t => rfl
  unfold genMovementEntropy
  rw [if_neg (by simp [hne])]
  refine ⟨fun h5 => ?_, fun h3 h5 => ?_, fun h2 => ?_⟩
  · simp only []
    rw [if_pos h5]
  · simp only []
    rw [if_neg (by omega), if_pos (by omega)]
  · simp only []
    rw [if_neg (by omega), if_neg (by omega)]

/-- Witness for C6 at a concrete text with exactly one vocabulary match. -/
theorem C6_movement_complexity_boundaries_witness :
    ("stride".toList ≠ [] ∧ movementTypesCount (pyLower ("stride".toList)) ≤ 2) ∧
    (genMovementEntropy Odef ("stride".toList)).complexity = "low".toList :=
  ⟨⟨by decide, by decide⟩,
    (C6_movement_complexity_boundaries Odef ("stride".toList)
      (by decide)).2.2 (by decide)⟩

/-- C7: `assess_password_strength` is a pure function of its two arguments:
two calls on equal passwords and equal contextual modifiers return identical
assessments (scores, tiers, analysis). -/
theorem C7_assess_deterministic (p1 p2 : Str)
    (m1 m2 : Option ContextualModifiers) (hp : p1 = p2) (hm : m1 = m2) :
    assessPasswordStrength p1 m1 = assessPasswordStrength p2 m2 := by
  rw [hp, hm]

/-- Witness for C7 at a concrete password. -/
theorem C7_assess_deterministic_witness :
    assessPasswordStrength ("aB3!".toList) none =
      assessPasswordStrength ("aB3!".toList) none :=
  C7_assess_deterministic ("aB3!".toList) ("aB3!".toList) none none rfl rfl

/-- A concrete password realizing 17 rubric points. -/
def pwSeventeen : Str := "aB7!Ωqxzr2@kM5#w".toList

/-- Concrete contextual modifiers with high behavioral confidence and high
movement complexity. -/
def ctxSeventeen : ContextualModifiers :=
  { temporal := "0011".toList,
    movement_entropy :=
      { pattern_hash := "001".toList, complexity := "high".toList,
        movement_types := some 6, signature := some ("abcd".toList) },
    behavioral_signature :=
      { complexity_score := "9".toList, signature := some ("CE".toList),
        confidence := "high".toList, features_detected := some 3 },
    session := "abcdef".toList,
    compound_modifier := "2233".toList }

/-- C10: the rubric of `assess_password_strength` can award a score strictly
above the reported `max_score` of 15 (17 is attainable). -/
theorem C10_score_exceeds_reported_max :
    ∃ (password : Str) (m : ContextualModifiers),
      (assessPasswordStrength password (some m)).max_score = 15 ∧
      (assessPasswordStrength password (some m)).score = 17 ∧
      15 < (assessPasswordStrength password (some m)).score :=
  ⟨pwSeventeen, ctxSeventeen, by decide, by decide, by decide⟩

/-- C4: on any unhandled exception in the `generate_password` pipeline, the
result has `generation_method = "fallback"`, `strength = "Medium"`
unconditionally, the failure message in its components dict, and a password
of the fixed shape: the literal prefix `Move`, the 8 hex characters of
`secrets.token_hex(4)`, the 1-2 digit current hour, and the trailing
punctuation character `!`. -/
theorem C4_fallback_result (O : Oracle) (detailedText summaryText errMsg : Str)
    (hhex : O.fallbackPasswordHex.length = 8) (hhour : O.now.hour < 24) :
    (generatePassword O detailedText summaryText (some errMsg)).generation_method
        = "fallback".toList ∧
    (generatePassword O detailedText summaryText (some errMsg)).strength
        = "Medium".toList ∧
    (generatePassword O detailedText summaryText (some errMsg)).components
        = .failure errMsg ∧
    (generatePassword O detailedText summaryText (some errMsg)).password
        = "Move".toList ++ O.fallbackPasswordHex ++ pyStrNat O.now.hour ++
          ['!'] ∧
    ("Move".toList).length = 4 ∧ O.fallbackPasswordHex.length = 8 ∧
    1 ≤ (pyStrNat O.now.hour).length ∧ (pyStrNat O.now.hour).length ≤ 2 ∧
    (∀ c ∈ pyStrNat O.now.hour, isDigitChar c = true) ∧
    isPunctClass '!' = true := by
  refine ⟨rfl, rfl, rfl, rfl, by decide, hhex,
    (pyStrNat_hour_len O.now.hour hhour).1,
    (pyStrNat_hour_len O.now.hour hhour).2,
    pyStrNat_hour_digits O.now.hour hhour, by decide⟩

/-- Witness for C4 at the concrete oracle and a concrete error message. -/
theorem C4_fallback_result_witness :
    (Odef.fallbackPasswordHex.length = 8 ∧ Odef.now.hour < 24) ∧
    (generatePassword Odef [] [] (some ("boom".toList))).generation_method
        = "fallback".toList ∧
    (generatePassword Odef [] [] (some ("boom".toList))).password
        = "Move".toList ++ Odef.fallbackPasswordHex ++
          pyStrNat Odef.now.hour ++ ['!'] :=
  ⟨⟨by decide, by decide⟩,
    (C4_fallback_result Odef [] [] ("boom".toList) (by decide) (by decide)).1,
    (C4_fallback_result Odef [] [] ("boom".toList) (by decide)
      (by decide)).2.2.2.1⟩

/-- C1: on every path of `generate_password` — the normal pipeline ending in
`ensure_advanced_complexity` and the exception fallback — the password of the
returned result has between 12 and 24 characters. -/
theorem C1_generate_password_length (O : Oracle)
    (detailedText summaryText : Str) (inject : Option Str)
    (hhex : O.fallbackPasswordHex.length = 8) (hhour : O.now.hour < 24) :
    12 ≤ (generatePassword O detailedText summaryText inject).password.length ∧
    (generatePassword O detailedText summaryText inject).password.length ≤ 24
    := by
  cases inject with
  | none =>
    simp only [generatePassword, generatePasswordNormal, assemblePassword]
    exact ensureAdvancedComplexity_length O _ _
  | some e =>
    simp only [generatePassword, fallbackResult]
    have hd := pyStrNat_hour_len O.now.hour hhour
    simp only [List.append_assoc, List.length_append, List.length_cons,
      List.length_nil, hhex]
    have : ("Move".toList).length = 4 := by decide
    omega

/-- Witness for C1: both paths at the concrete oracle on empty inputs. -/
theorem C1_generate_password_length_witness :
    (Odef.fallbackPasswordHex.length = 8 ∧ Odef.now.hour < 24) ∧
    (12 ≤ (generatePassword Odef [] [] none).password.length ∧
      (generatePassword Odef [] [] none).password.length ≤ 24) ∧
    (12 ≤ (generatePassword Odef [] [] (some ("boom".toList))).password.length ∧
      (generatePassword Odef [] []
        (some ("boom".toList))).password.length ≤ 24) :=
  ⟨⟨by decide, by decide⟩,
    C1_generate_password_length Odef [] [] none (by decide) (by decide),
    C1_generate_password_length Odef [] [] (some ("boom".toList)) (by decide)
      (by decide)⟩

theorem highTemplate_getD_mem :
    ∀ m, m < 4 → highSecurityTemplates.getD m [] ∈
      highSecurityTemplates ++ mediumSecurityTemplates := by
  decide

theorem mediumTemplate_getD_mem :
    ∀ m, m < 3 → mediumSecurityTemplates.getD m [] ∈
      highSecurityTemplates ++ mediumSecurityTemplates := by
  decide

theorem selectSecurityOptimalTemplate_mem (O : Oracle)
    (elems : SemanticElements) (ctx : ContextualModifiers) :
    selectSecurityOptimalTemplate O elems ctx ∈
      highSecurityTemplates ++ mediumSecurityTemplates := by
  unfold selectSecurityOptimalTemplate
  split
  · exact highTemplate_getD_mem _ (Nat.mod_lt _ (by norm_num))
  · exact mediumTemplate_getD_mem _ (Nat.mod_lt _ (by norm_num))

theorem pyFormat_components_isSome (t : Str)
    (ht : t ∈ highSecurityTemplates ++ mediumSecurityTemplates)
    (action modifier biometric temporal entropy behavioral randomC
      signature : Str) :
    (pyFormat t (mkComponents action modifier biometric temporal entropy
      behavioral randomC signature)).isSome = true ∧
    ∀ O : Oracle,
      dynamicPasswordAssembly O t (mkComponents action modifier biometric
        temporal entropy behavioral randomC signature) =
      (pyFormat t (mkComponents action modifier biometric temporal entropy
        behavioral randomC signature)).getD [] := by
  fin_cases ht <;> exact ⟨rfl, fun O => rfl⟩

/-- C9: for every template that `_select_security_optimal_template` can
return and every component record built by `assemble_password` (which binds
all eight slot names), `template.format` succeeds — so the `KeyError`
fallback branch of `_dynamic_password_assembly` is unreachable and the
assembly equals the rendered template. -/
theorem C9_keyerror_branch_unreachable (O : Oracle)
    (elems : SemanticElements) (ctx : ContextualModifiers)
    (action modifier biometric temporal entropy behavioral randomC
      signature : Str) :
    (pyFormat (selectSecurityOptimalTemplate O elems ctx)
      (mkComponents action modifier biometric temporal entropy behavioral
        randomC signature)).isSome = true ∧
    dynamicPasswordAssembly O (selectSecurityOptimalTemplate O elems ctx)
      (mkComponents action modifier biometric temporal entropy behavioral
        randomC signature) =
    (pyFormat (selectSecurityOptimalTemplate O elems ctx)
      (mkComponents action modifier biometric temporal entropy behavioral
        randomC signature)).getD [] := by
  have h := pyFormat_components_isSome
    (selectSecurityOptimalTemplate O elems ctx)
    (selectSecurityOptimalTemplate_mem O elems ctx)
    action modifier biometric temporal entropy behavioral randomC signature
  exact ⟨h.1, h.2 O⟩

/-- Concrete summary-side extraction result used by C3. -/
def elemsSummary : SemanticElements :=
  { actions := [("walking".toList)], descriptors := [("arm".toList)],
    qualifiers := [("smooth".toList)], full_text := "s".toList }

/-- Concrete analysis-side extraction result used by C3. -/
def elemsAnalysis : SemanticElements :=
  { actions := [("running".toList)], descriptors := [("left".toList)],
    qualifiers := [], full_text := "a".toList }

theorem validSetOrder_revDedup :
    ValidSetOrder (fun l => (l.dedup).reverse) := by
  intro l
  constructor
  · exact List.nodup_reverse.mpr (List.nodup_dedup l)
  · intro x
    simp [List.mem_reverse, List.mem_dedup]

/-- Counterexample for C3: `list(set(...))` does not preserve insertion
order, so with a set-enumeration order that a Python set may exhibit
(here: the reverse of first-occurrence order), the merged `actions` do not
start with the summary's entries — the negation of the order-preservation
claim. -/
theorem C3_counterexample :
    ¬ ∀ (σ : List Str → List Str), ValidSetOrder σ →
        ∀ sE aE : SemanticElements,
          (mergeElements σ sE aE).actions =
            ((sE.actions ++ aE.actions).dedup).take 3 := by
  intro h
  have := h (fun l => (l.dedup).reverse) validSetOrder_revDedup
    elemsSummary elemsAnalysis
  exact absurd this (by decide)

/-- C3 (amended): the merge step unions each semantic field as an unordered
set — the result is duplicate-free, its entries come from the two inputs
(summary entries first in the concatenation fed to the set, but the
enumeration order of a Python set is unspecified), the caps 3/3/2 are applied
after deduplication, and the two full texts are concatenated with one
space. -/
theorem C3_merge_step (σ : List Str → List Str) (hσ : ValidSetOrder σ)
    (sE aE : SemanticElements) :
    ((mergeElements σ sE aE).actions.length ≤ 3 ∧
      (mergeElements σ sE aE).actions.Nodup ∧
      ∀ x ∈ (mergeElements σ sE aE).actions,
        x ∈ sE.actions ∨ x ∈ aE.actions) ∧
    ((mergeElements σ sE aE).descriptors.length ≤ 3 ∧
      (mergeElements σ sE aE).descriptors.Nodup ∧
      ∀ x ∈ (mergeElements σ sE aE).descriptors,
        x ∈ sE.descriptors ∨ x ∈ aE.descriptors) ∧
    ((mergeElements σ sE aE).qualifiers.length ≤ 2 ∧
      (mergeElements σ sE aE).qualifiers.Nodup ∧
      ∀ x ∈ (mergeElements σ sE aE).qualifiers,
        x ∈ sE.qualifiers ∨ x ∈ aE.qualifiers) ∧
    (mergeElements σ sE aE).full_text =
      sE.full_text ++ [' '] ++ aE.full_text := by
  have field : ∀ (l1 l2 : List Str) (k : Nat),
      ((σ (l1 ++ l2)).take k).length ≤ k ∧
      ((σ (l1 ++ l2)).take k).Nodup ∧
      ∀ x ∈ (σ (l1 ++ l2)).take k, x ∈ l1 ∨ x ∈ l2 := by
    intro l1 l2 k
    refine ⟨?_, ?_, ?_⟩
    · simp [List.length_take_le]
    · exact List.Nodup.sublist (List.take_sublist k (σ (l1 ++ l2)))
        (hσ (l1 ++ l2)).1
    · intro x hx
      have hx2 : x ∈ σ (l1 ++ l2) := List.take_subset _ _ hx
      have := ((hσ (l1 ++ l2)).2 x).mp hx2
      exact List.mem_append.mp this
  exact ⟨field sE.actions aE.actions 3, field sE.descriptors aE.descriptors 3,
    field sE.qualifiers aE.qualifiers 2, rfl⟩

/-- Witness for C3 at a realizable set order (first-occurrence order) and
concrete extraction results. -/
theorem C3_merge_step_witness :
    (mergeElements (fun l => l.dedup) elemsSummary elemsAnalysis).full_text =
      elemsSummary.full_text ++ [' '] ++ elemsAnalysis.full_text ∧
    (mergeElements (fun l => l.dedup) elemsSummary
      elemsAnalysis).actions.length ≤ 3 ∧
    (mergeElements (fun l => l.dedup) elemsSummary
      elemsAnalysis).qualifiers.length ≤ 2 :=
  ⟨(C3_merge_step (fun l => l.dedup) validSetOrder_dedup elemsSummary
      elemsAnalysis).2.2.2,
   (C3_merge_step (fun l => l.dedup) validSetOrder_dedup elemsSummary
      elemsAnalysis).1.1,
   (C3_merge_step (fun l => l.dedup) validSetOrder_dedup elemsSummary
      elemsAnalysis).2.2.1.1⟩

theorem actionCandidates_nil_filter :
    (actionCandidates []).filter finalActionFilter = [] := by decide

theorem descriptorCandidates_nil : descriptorCandidates [] = [] := by decide

theorem qualifierCandidates_nil : qualifierCandidates [] = [] := by decide

theorem extractSemanticElements_nil (O : Oracle)
    (hσ : ValidSetOrder O.setOrder) :
    extractSemanticElements O [] =
      { actions := [], descriptors := [], qualifiers := [],
        full_text := [] } := by
  unfold extractSemanticElements extractActionsDynamically
    extractContextualDescriptors extractMovementQualifiers
  rw [show pyLower [] = [] from rfl, actionCandidates_nil_filter,
    descriptorCandidates_nil, qualifierCandidates_nil,
    validSetOrder_nil hσ]
  rfl

/-- Counterexample for C5: on empty inputs the merged `full_text` is a
single space, not the empty string, so `_generate_movement_entropy` takes
its non-empty branch (its result carries `movement_types = 0`), while the
empty-text fallback branch would return a dict without that key. -/
theorem C5_counterexample :
    (mergeElements Odef.setOrder (extractSemanticElements Odef [])
      (extractSemanticElements Odef [])).full_text = [' '] ∧
    (genMovementEntropy Odef [' ']).movement_types = some 0 ∧
    (genMovementEntropy Odef []).movement_types = none := by decide

/-- C5 (amended): on empty inputs, extraction yields empty actions,
descriptors and qualifiers, and `generate_password` completes normally with
`generation_method = "advanced_biometric_extraction"`, a full result (both
optional fields present), a password of 12-24 characters and a strength from
the five tiers; but the merged `full_text` is a single space, so the modifier
generator runs its non-empty branch, classifying zero vocabulary matches
(`movement_types = 0`, complexity low) rather than taking its empty-text
fallback. -/
theorem C5_empty_inputs (O : Oracle) (hσ : ValidSetOrder O.setOrder) :
    ((extractSemanticElements O []).actions = [] ∧
     (extractSemanticElements O []).descriptors = [] ∧
     (extractSemanticElements O []).qualifiers = []) ∧
    (generatePassword O [] [] none).generation_method =
      "advanced_biometric_extraction".toList ∧
    ((generatePassword O [] [] none).strength_analysis.isSome = true ∧
     (generatePassword O [] [] none).security_features.isSome = true) ∧
    (12 ≤ (generatePassword O [] [] none).password.length ∧
     (generatePassword O [] [] none).password.length ≤ 24) ∧
    (generatePassword O [] [] none).strength ∈ strengthTiers ∧
    ((generatePassword O [] [] none).components.modifiersOf.map
      (fun m => m.movement_entropy.movement_types)) = some (some 0) := by
  have he := extractSemanticElements_nil O hσ
  have hft : (mergeElements O.setOrder (extractSemanticElements O [])
      (extractSemanticElements O [])).full_text = [' '] := by
    show (extractSemanticElements O []).full_text ++ [' '] ++
      (extractSemanticElements O []).full_text = [' ']
    rw [he]
    rfl
  refine ⟨⟨by rw [he], by rw [he], by rw [he]⟩, rfl, ⟨rfl, rfl⟩, ?_, ?_, ?_⟩
  · simp only [generatePassword, generatePasswordNormal, assemblePassword]
    exact ensureAdvancedComplexity_length O _ _
  · simp only [generatePassword, generatePasswordNormal,
      assessPasswordStrength]
    exact assessStrengthTier_mem _
  · simp only [generatePassword, generatePasswordNormal,
      ResultComponents.modifiersOf, Option.map_some',
      generateContextualModifiers, hft]
    rw [show (genMovementEntropy O [' ']).movement_types =
      some (movementTypesCount (pyLower [' '])) from by
        unfold genMovementEntropy
        rw [if_neg (by decide)]]
    decide

/-- Witness for C5 at the concrete oracle (whose set order is
first-occurrence order, a realizable Python set order). -/
theorem C5_empty_inputs_witness :
    (extractSemanticElements Odef []).actions = [] ∧
    (generatePassword Odef [] [] none).generation_method =
      "advanced_biometric_extraction".toList ∧
    ((generatePassword Odef [] [] none).components.modifiersOf.map
      (fun m => m.movement_entropy.movement_types)) = some (some 0) :=
  ⟨(C5_empty_inputs Odef validSetOrder_dedup).1.1,
   (C5_empty_inputs Odef validSetOrder_dedup).2.1,
   (C5_empty_inputs Odef validSetOrder_dedup).2.2.2.2.2⟩

/-- Counterexample for C8: the exception-path result omits the
`strength_analysis` and `security_features` keys entirely. -/
theorem C8_counterexample :
    (generatePassword Odef [] []
      (some ("boom".toList))).strength_analysis = none ∧
    (generatePassword Odef [] []
      (some ("boom".toList))).security_features = none :=
  ⟨rfl, rfl⟩

/-- C8 (amended): every `generate_password` result carries `password`,
`components`, `strength` (always one of the five tiers) and
`generation_method`; the normal path additionally carries `strength_analysis`
and `security_features`, but the exception-fallback path omits both and fixes
`strength = "Medium"`. -/
theorem C8_result_fields (O : Oracle) (detailedText summaryText : Str)
    (inject : Option Str) :
    (generatePassword O detailedText summaryText inject).strength ∈
      strengthTiers ∧
    (inject = none →
      (generatePassword O detailedText summaryText
        inject).strength_analysis.isSome = true ∧
      (generatePassword O detailedText summaryText
        inject).security_features.isSome = true) ∧
    (∀ e, inject = some e →
      (generatePassword O detailedText summaryText
        inject).strength_analysis = none ∧
      (generatePassword O detailedText summaryText
        inject).security_features = none ∧
      (generatePassword O detailedText summaryText inject).strength =
        "Medium".toList) := by
  cases inject with
  | none =>
    refine ⟨?_, fun _ => ⟨rfl, rfl⟩, fun e he => nomatch he⟩
    simp only [generatePassword, generatePasswordNormal,
      assessPasswordStrength]
    exact assessStrengthTier_mem _
  | some e =>
    refine ⟨?_, ?_, ?_⟩
    · show "Medium".toList ∈ strengthTiers
      decide
    · intro h
      exact nomatch h
    · intro e' he'
      exact ⟨rfl, rfl, rfl⟩

/-- Witness for C8: both branches of the implication at concrete inputs. -/
theorem C8_result_fields_witness :
    ((generatePassword Odef [] [] none).strength_analysis.isSome = true ∧
     (generatePassword Odef [] [] none).security_features.isSome = true) ∧
    ((generatePassword Odef [] []
        (some ("boom".toList))).strength_analysis = none ∧
     (generatePassword Odef [] []
        (some ("boom".toList))).security_features = none ∧
     (generatePassword Odef [] [] (some ("boom".toList))).strength =
        "Medium".toList) :=
  ⟨(C8_result_fields Odef [] [] none).2.1 rfl,
   (C8_result_fields Odef [] [] (some ("boom".toList))).2.2 ("boom".toList)
     rfl⟩

theorem char_toNat_ofNat (n : Nat) (h : n < 55296) :
    (Char.ofNat n).toNat = n := by
  unfold Char.ofNat
  rw [dif_pos (Or.inl h : n.isValidChar)]
  simp [Char.ofNatAux, Char.toNat, UInt32.toNat, UInt32.ofNatCore]

theorem isLowerAscii_bounds (c : Char) (h : isLowerAscii c = true) :
    97 ≤ c.toNat ∧ c.toNat ≤ 122 := by
  simpa [isLowerAscii, Bool.and_eq_true, decide_eq_true_eq] using h

theorem pyUpperChar_of_lower (c : Char) (h : isLowerAscii c = true) :
    isUpperAscii (pyUpperChar c) = true := by
  have hb := isLowerAscii_bounds c h
  unfold pyUpperChar
  rw [if_pos h]
  have ht : (Char.ofNat (c.toNat - 32)).toNat = c.toNat - 32 :=
    char_toNat_ofNat _ (by omega)
  simp [isUpperAscii, ht, Bool.and_eq_true, decide_eq_true_eq]
  omega

theorem pyUpperChar_fix (c : Char) (hl : isLowerAscii c = false)
    (hb : c.toNat < 181) : pyUpperChar c = c := by
  have h1 : c ≠ 'µ' := fun hc => by subst hc; exact absurd hb (by decide)
  have h2 : c ≠ 'ñ' := fun hc => by subst hc; exact absurd hb (by decide)
  have h3 : c ≠ 'þ' := fun hc => by subst hc; exact absurd hb (by decide)
  have h4 : c ≠ 'ř' := fun hc => by subst hc; exact absurd hb (by decide)
  have h5 : c ≠ 'м' := fun hc => by subst hc; exact absurd hb (by decide)
  have h6 : c ≠ 'ω' := fun hc => by subst hc; exact absurd hb (by decide)
  have h7 : c ≠ 'α' := fun hc => by subst hc; exact absurd hb (by decide)
  simp [pyUpperChar, hl, h1, h2, h3, h4, h5, h6, h7]

theorem punct_mem_facts :
    ∀ c ∈ punctClassChars,
      isLowerAscii c = false ∧ c.toNat < 181 ∧ isUpperAscii c = false ∧
      isDigitChar c = false := by
  decide

theorem punct_facts (c : Char) (h : isPunctClass c = true) :
    isLowerAscii c = false ∧ c.toNat < 181 ∧ isUpperAscii c = false ∧
      isDigitChar c = false := by
  have hm : c ∈ punctClassChars := by simpa [isPunctClass] using h
  exact punct_mem_facts c hm

theorem digitChar_facts (c : Char) (h : isDigitChar c = true) :
    isLowerAscii c = false ∧ c.toNat < 181 ∧ isUpperAscii c = false := by
  have hb : 48 ≤ c.toNat ∧ c.toNat ≤ 57 := by
    simpa [isDigitChar, Bool.and_eq_true, decide_eq_true_eq] using h
  refine ⟨?_, by omega, ?_⟩
  · simp [isLowerAscii, Bool.and_eq_true, decide_eq_true_eq]
    omega
  · simp [isUpperAscii, Bool.and_eq_true, decide_eq_true_eq]
    omega

theorem punctChoice_facts :
    ∀ m, m < 5 →
      isPunctClass (("!@#$%".toList).getD m '!') = true ∧
      isDigitChar (("!@#$%".toList).getD m '!') = false ∧
      isUpperAscii (("!@#$%".toList).getD m '!') = false := by
  decide

theorem digitChoice_facts :
    ∀ m, m < 10 →
      isDigitChar (Char.ofNat (48 + m)) = true ∧
      isUpperAscii (Char.ofNat (48 + m)) = false := by
  decide

theorem any_append_left {P : Char → Bool} {a : Str} (b : Str)
    (h : a.any P = true) : (a ++ b).any P = true := by
  simp [List.any_append, h]

theorem ecPunctStep_any_punct (O : Oracle) (p : Str) :
    (ecPunctStep O p).any isPunctClass = true := by
  unfold ecPunctStep
  split
  · assumption
  · simp only [List.any_append, List.any_cons, List.any_nil, Bool.or_false,
      Bool.or_eq_true]
    exact Or.inr (punctChoice_facts (O.punctIdx % 5)
      (Nat.mod_lt _ (by norm_num))).1

theorem ecDigitStep_any_digit (O : Oracle) (p : Str) :
    (ecDigitStep O p).any isDigitChar = true := by
  unfold ecDigitStep
  split
  · assumption
  · simp only [List.any_append, List.any_cons, List.any_nil, Bool.or_false,
      Bool.or_eq_true]
    refine Or.inr ?_
    have := digitChoice_facts (O.digitVal % 10) (Nat.mod_lt _ (by norm_num))
    exact this.1

theorem ecDigitStep_any_mono {P : Char → Bool} (O : Oracle) (p : Str)
    (h : p.any P = true) : (ecDigitStep O p).any P = true := by
  unfold ecDigitStep
  split
  · exact h
  · exact any_append_left _ h

theorem ecUpperStep_any_mono {P : Char → Bool}
    (hP : ∀ c, P c = true → pyUpperChar c = c) (p : Str)
    (h : p.any P = true) : (ecUpperStep p).any P = true := by
  unfold ecUpperStep
  split
  · exact h
  · cases p with
    | nil => simp at h
    | cons c rest =>
      simp only [List.any_cons, Bool.or_eq_true] at h ⊢
      rcases h with hc | hrest
      · exact Or.inl (by rw [hP c hc]; exact hc)
      · exact Or.inr hrest

theorem padToF_any_mono {P : Char → Bool} (pads : Nat → Char × Char) :
    ∀ (fuel i L : Nat) (s : Str), s.any P = true →
      (padToF pads fuel i L s).any P = true := by
  intro fuel
  induction fuel with
  | zero => intro i L s h; simpa [padToF] using h
  | succ n ih =>
    intro i L s h
    simp only [padToF]
    split
    · exact ih _ _ _ (any_append_left _ h)
    · exact h

theorem ecPunctStep_length (O : Oracle) (p : Str) :
    p.length ≤ (ecPunctStep O p).length ∧
      (ecPunctStep O p).length ≤ p.length + 1 := by
  unfold ecPunctStep
  split
  · omega
  · simp

theorem ecDigitStep_length (O : Oracle) (p : Str) :
    p.length ≤ (ecDigitStep O p).length ∧
      (ecDigitStep O p).length ≤ p.length + 1 := by
  unfold ecDigitStep
  split
  · omega
  · simp

theorem ecUpperStep_length (p : Str) :
    (ecUpperStep p).length = p.length := by
  unfold ecUpperStep
  split
  · rfl
  · cases p <;> simp

theorem ecPunctStep_cons (O : Oracle) (c : Char) (r : Str) :
    ∃ r2, ecPunctStep O (c :: r) = c :: r2 := by
  unfold ecPunctStep
  split
  · exact ⟨r, rfl⟩
  · exact ⟨r ++ [("!@#$%".toList).getD (O.punctIdx % 5) '!'], rfl⟩

theorem ecDigitStep_cons (O : Oracle) (c : Char) (r : Str) :
    ∃ r2, ecDigitStep O (c :: r) = c :: r2 := by
  unfold ecDigitStep
  split
  · exact ⟨r, rfl⟩
  · exact ⟨r ++ [Char.ofNat (48 + O.digitVal % 10)], rfl⟩

theorem ecPunctStep_any_mono {P : Char → Bool} (O : Oracle) (p : Str)
    (h : p.any P = true) : (ecPunctStep O p).any P = true := by
  unfold ecPunctStep
  split
  · exact h
  · exact any_append_left _ h

theorem padTo_any_mono {P : Char → Bool} (pads : Nat → Char × Char)
    (L : Nat) (s : Str) (h : s.any P = true) :
    (padTo pads L s).any P = true :=
  padToF_any_mono pads L 0 L s h

/-- Counterexample for C2: on thirty tildes (no punctuation-class character,
no digit, no uppercase, and a first character that `upper()` leaves
unchanged), the 20-character truncation removes the appended punctuation and
digit, and the result of `ensure_complexity` contains no punctuation
symbol, no digit and no uppercase letter. -/
theorem C2_counterexample :
    (ensureComplexity Odef (List.replicate 30 '~')).any isPunctClass
        = false ∧
    (ensureComplexity Odef (List.replicate 30 '~')).any isDigitChar
        = false ∧
    (ensureComplexity Odef (List.replicate 30 '~')).any isUpperAscii
        = false := by
  decide

/-- C2 (amended): for every input string and every random outcome,
`ensure_complexity` returns a string of 12 to 20 characters; the guarantees
of at least one punctuation symbol, one digit and one uppercase letter
additionally hold whenever the input is short enough that the 20-character
truncation cannot fire (length at most 18) and the input either already
contains an uppercase letter or starts with a lowercase ASCII letter. -/
theorem C2_ensure_complexity (O : Oracle) (password : Str) :
    (12 ≤ (ensureComplexity O password).length ∧
      (ensureComplexity O password).length ≤ 20) ∧
    (password.length ≤ 18 →
      (password.any isUpperAscii = true ∨
        ∃ c rest, password = c :: rest ∧ isLowerAscii c = true) →
      (ensureComplexity O password).any isPunctClass = true ∧
      (ensureComplexity O password).any isDigitChar = true ∧
      (ensureComplexity O password).any isUpperAscii = true) := by
  refine ⟨ensureComplexity_length O password, ?_⟩
  intro hlen hup
  have hp1 := ecPunctStep_length O password
  have hp2 := ecDigitStep_length O (ecPunctStep O password)
  have hp3 := ecUpperStep_length (ecDigitStep O (ecPunctStep O password))
  have hle : (ecUpperStep (ecDigitStep O (ecPunctStep O password))).length
      ≤ 20 := by omega
  have hpad := padTo_length_le O.padsA 12
    (ecUpperStep (ecDigitStep O (ecPunctStep O password)))
  have hnotr : ¬ 20 < (padTo O.padsA 12
      (ecUpperStep (ecDigitStep O (ecPunctStep O password)))).length := by
    have := le_trans hpad (max_le hle (by norm_num))
    omega
  have hP3 : (ecUpperStep (ecDigitStep O (ecPunctStep O password))).any
      isPunctClass = true :=
    ecUpperStep_any_mono
      (fun c hc => pyUpperChar_fix c (punct_facts c hc).1
        (punct_facts c hc).2.1) _
      (ecDigitStep_any_mono O _ (ecPunctStep_any_punct O password))
  have hD3 : (ecUpperStep (ecDigitStep O (ecPunctStep O password))).any
      isDigitChar = true :=
    ecUpperStep_any_mono
      (fun c hc => pyUpperChar_fix c (digitChar_facts c hc).1
        (digitChar_facts c hc).2.1) _
      (ecDigitStep_any_digit O _)
  have hU3 : (ecUpperStep (ecDigitStep O (ecPunctStep O password))).any
      isUpperAscii = true := by
    by_cases hu2 : (ecDigitStep O (ecPunctStep O password)).any isUpperAscii
        = true
    · unfold ecUpperStep
      rw [if_pos hu2]
      exact hu2
    · rcases hup with hupper | ⟨c, rest, hcr, hlow⟩
      · exact absurd (ecDigitStep_any_mono O _
          (ecPunctStep_any_mono O _ hupper)) hu2
      · subst hcr
        obtain ⟨r1, h1⟩ := ecPunctStep_cons O c rest
        obtain ⟨r2, h2⟩ := ecDigitStep_cons O c r1
        rw [h1, h2]
        unfold ecUpperStep
        rw [if_neg (by rw [h1, h2] at hu2; exact hu2)]
        simp only [List.any_cons, Bool.or_eq_true]
        exact Or.inl (pyUpperChar_of_lower c hlow)
  unfold ensureComplexity ecTrunc
  rw [if_neg hnotr]
  exact ⟨padTo_any_mono _ _ _ hP3, padTo_any_mono _ _ _ hD3,
    padTo_any_mono _ _ _ hU3⟩

/-- Witness for C2 at a short all-lowercase input. -/
theorem C2_ensure_complexity_witness :
    (("abc".toList).length ≤ 18 ∧ isLowerAscii 'a' = true) ∧
    ((ensureComplexity Odef ("abc".toList)).any isPunctClass = true ∧
     (ensureComplexity Odef ("abc".toList)).any isDigitChar = true ∧
     (ensureComplexity Odef ("abc".toList)).any isUpperAscii = true) :=
  ⟨⟨by decide, by decide⟩,
    (C2_ensure_complexity Odef ("abc".toList)).2 (by decide)
      (Or.inr ⟨'a', "bc".toList, rfl, by decide⟩)⟩
